import Mathlib

/-!
Shallow embedding of the rendezvous/buffering core of the kanal MPMC channel
(`src/lib.rs`).  The channel-internal state (`ChannelInternal` in the absent
`internal.rs`) is reconstructed from the spec; the endpoint operations
(`try_send`, `recv`, `try_recv`, `send_timeout`, `recv_timeout`,
`send_option_timeout`, `close`, clone/drop accounting) are translated branch
by branch from `src/lib.rs`.

Modelling conventions:
- Payloads are values of an arbitrary type `T`; the buffer `queue` is a
  FIFO `List T` (push_back appends, pop_front takes the head).
- A parked sender Signal is modelled as a pair `(identity, payload)`: the
  peer's `Signal::recv` (consume) yields the payload.  A parked receiver
  Signal is modelled by its identity alone (its slot is written by the peer).
- The concurrent environment seen by a parked thread after it released the
  mutex is an oracle (`ParkOracle`): the outcome of `sig.wait_timeout`
  (true = transferred), of `sig.is_terminated`, whether the owner's signal is
  still on its wait queue when the owner re-acquires the mutex (so that
  `cancel_send_signal` / `cancel_recv_signal` succeeds), and the outcome of
  the unconditional follow-up `sig.wait`.
- `Instant` is a `Nat` bounded by `instantMax`; `checked_add` fails exactly
  when the sum exceeds the bound, and `.unwrap()` on that failure is a panic,
  modelled as the `none` result of the `*_entry` wrappers.
-/

/-- Rust `Result<A, E>` with its `Ok` / `Err` constructors. -/
inductive RResult (α : Type) (ε : Type) where
  | Ok (a : α)
  | Err (e : ε)
deriving DecidableEq, Repr

/-- `Error` from `src/lib.rs`: error type for channel operations without timeout. -/
inductive Error where
  | Closed
  | SendClosed
  | ReceiveClosed
deriving DecidableEq, Repr

/-- `ErrorTimeout` from `src/lib.rs`: error type for channel operations with timeout. -/
inductive ErrorTimeout where
  | Closed
  | SendClosed
  | ReceiveClosed
  | Timeout
deriving DecidableEq, Repr

/-- Modelled from the spec: `internal.rs` is not among the sources.  §3
ChannelCore holds the ring buffer `queue`, the logical `capacity`
(`usize::MAX` sentinel for unbounded), the two wait queues of parked Signals,
and the live endpoint counts.  A send-side Signal carries its payload (which
the peer consumes); signals are identified by a `Nat` identity standing for
the Rust signal pointer. -/
structure ChannelInternal (T : Type) where
  queue : List T
  capacity : Nat
  send_wait : List (Nat × T)
  recv_wait : List Nat
  send_count : Nat
  recv_count : Nat
deriving DecidableEq, Repr

/-- Modelled from the spec: §4.4 step 2 of Send — pop the head of the
receive wait queue (`next_recv` of the absent `internal.rs`). -/
def next_recv {T : Type} (ch : ChannelInternal T) : Option (Nat × ChannelInternal T) :=
  match ch.recv_wait with
  | [] => none
  | r :: rest => some (r, { ch with recv_wait := rest })

/-- Modelled from the spec: §4.4 Receive — pop the head of the send wait
queue (`next_send` of the absent `internal.rs`). -/
def next_send {T : Type} (ch : ChannelInternal T) : Option ((Nat × T) × ChannelInternal T) :=
  match ch.send_wait with
  | [] => none
  | p :: rest => some (p, { ch with send_wait := rest })

/-- Modelled from the spec: §4.2 — `push_back` of the caller's Signal onto the
send wait queue. -/
def push_send {T : Type} (sig : Nat × T) (ch : ChannelInternal T) : ChannelInternal T :=
  { ch with send_wait := ch.send_wait ++ [sig] }

/-- Modelled from the spec: §4.2 — `push_back` of the caller's Signal onto the
receive wait queue. -/
def push_recv {T : Type} (sid : Nat) (ch : ChannelInternal T) : ChannelInternal T :=
  { ch with recv_wait := ch.recv_wait ++ [sid] }

/-- Modelled from the spec: §4.4 Shutdown — call `terminate` on every Signal in
both wait queues, clearing both queues.  Returns the identities of the
terminated signals together with the new state. -/
def terminate_signals {T : Type} (ch : ChannelInternal T) : ChannelInternal T × List Nat :=
  ({ ch with send_wait := [], recv_wait := [] },
   ch.send_wait.map Prod.fst ++ ch.recv_wait)

/-- Modelled from the spec: §6 — `bounded(size)` builds a channel with
`capacity = size`, empty buffer and wait queues, and one live endpoint on
each side (`ChannelInternal::new(true, size)` of the absent `internal.rs`). -/
def bounded (T : Type) (size : Nat) : ChannelInternal T :=
  { queue := [], capacity := size, send_wait := [], recv_wait := [],
    send_count := 1, recv_count := 1 }

/-- `Sender::try_send` (`src/lib.rs` 355-373).  `Ok true` = sent (direct
handoff to the popped receiver, whose slot receives `data`, or buffered),
`Ok false` = would block.  The returned state is the channel state at guard
release. -/
def try_send {T : Type} (data : T) (ch : ChannelInternal T) :
    RResult (Bool × ChannelInternal T) Error :=
  if ch.send_count = 0 then .Err .Closed
  else
    match next_recv ch with
    | some (_, ch1) => .Ok (true, ch1)
    | none =>
      if ch.queue.length < ch.capacity then
        .Ok (true, { ch with queue := ch.queue ++ [data] })
      else if ch.recv_count = 0 then .Err .ReceiveClosed
      else .Ok (false, ch)

/-- Outcome of a blocking `recv`: an error, a value with the state at guard
release, or parking (the caller pushed its Signal and blocks in `sig.wait()`;
the state is the one at guard release). -/
inductive RecvOut (T : Type) where
  | err (e : Error)
  | ok (v : T) (ch : ChannelInternal T)
  | parks (ch : ChannelInternal T)
deriving DecidableEq, Repr

/-- `Receiver::recv` (`src/lib.rs` 507-544) up to its park (the park outcome
depends on the environment).  `sid` is the identity of the Signal the caller
builds if it parks.  In the buffer-pop branch, a parked sender's payload is
consumed and pushed onto the buffer tail. -/
def recv {T : Type} (sid : Nat) (ch : ChannelInternal T) : RecvOut T :=
  if ch.recv_count = 0 then .err .Closed
  else
    match ch.queue with
    | v :: rest =>
      match next_send { ch with queue := rest } with
      | some (p, ch2) => .ok v { ch2 with queue := ch2.queue ++ [p.2] }
      | none => .ok v { ch with queue := rest }
    | [] =>
      match next_send ch with
      | some (p, ch1) => .ok p.2 ch1
      | none =>
        if ch.send_count = 0 then .err .SendClosed
        else .parks (push_recv sid ch)

/-- `Receiver::try_recv` (`src/lib.rs` 604-625).  `Ok none` = would block. -/
def try_recv {T : Type} (ch : ChannelInternal T) :
    RResult (Option T × ChannelInternal T) Error :=
  if ch.recv_count = 0 then .Err .Closed
  else
    match ch.queue with
    | v :: rest =>
      match next_send { ch with queue := rest } with
      | some (p, ch2) => .Ok (some v, { ch2 with queue := ch2.queue ++ [p.2] })
      | none => .Ok (some v, { ch with queue := rest })
    | [] =>
      match next_send ch with
      | some (p, ch1) => .Ok (some p.2, ch1)
      | none =>
        if ch.send_count = 0 then .Err .SendClosed
        else .Ok (none, ch)

/-- Environment oracle for a parked timed operation: outcome of
`sig.wait_timeout(deadline)`, of `sig.is_terminated()`, whether the signal is
still queued when the owner re-acquires the mutex (success of
`cancel_send_signal` / `cancel_recv_signal`), and outcome of the follow-up
`sig.wait()`. -/
structure ParkOracle where
  wait_timeout_ok : Bool
  sig_terminated : Bool
  still_queued : Bool
  wait_ok : Bool
deriving DecidableEq, Repr

/-- Result of a timed operation: the Rust result, whether the operation parked
(pushed its Signal and released the mutex), whether it successfully retracted
its Signal (`cancel_*_signal` returned true), and the channel state at the
owner's last guard release before parking or returning. -/
structure TimedRes (T : Type) (α : Type) where
  res : RResult α ErrorTimeout
  parked : Bool
  cancelled : Bool
  ch : ChannelInternal T
deriving DecidableEq, Repr

/-- `Sender::send_timeout` (`src/lib.rs` 250-296), with the deadline already
computed; the post-park behaviour is resolved by the oracle `o` following the
source: `wait_timeout` success returns `Ok`; otherwise a terminated signal
returns `SendClosed`; otherwise a successful cancel returns `Timeout`; failing
that the unconditional `wait` maps to `Ok` or `SendClosed`. -/
def send_timeout {T : Type} (sid : Nat) (o : ParkOracle) (data : T)
    (ch : ChannelInternal T) : TimedRes T Unit :=
  if ch.send_count = 0 then ⟨.Err .Closed, false, false, ch⟩
  else
    match next_recv ch with
    | some (_, ch1) => ⟨.Ok (), false, false, ch1⟩
    | none =>
      if ch.queue.length < ch.capacity then
        ⟨.Ok (), false, false, { ch with queue := ch.queue ++ [data] }⟩
      else if ch.recv_count = 0 then ⟨.Err .ReceiveClosed, false, false, ch⟩
      else
        let ch1 := push_send (sid, data) ch
        if o.wait_timeout_ok then ⟨.Ok (), true, false, ch1⟩
        else if o.sig_terminated then ⟨.Err .SendClosed, true, false, ch1⟩
        else if o.still_queued then ⟨.Err .Timeout, true, true, ch1⟩
        else if o.wait_ok then ⟨.Ok (), true, false, ch1⟩
        else ⟨.Err .SendClosed, true, false, ch1⟩

/-- `Receiver::recv_timeout` (`src/lib.rs` 547-599), with the deadline already
computed.  `expired` is the value of `Instant::now() > deadline` at the check
the source performs before parking (line 565); `slot` is the payload the peer
writes into the caller's slot when the signal is transferred. -/
def recv_timeout {T : Type} (expired : Bool) (slot : T) (sid : Nat)
    (o : ParkOracle) (ch : ChannelInternal T) : TimedRes T T :=
  if ch.recv_count = 0 then ⟨.Err .Closed, false, false, ch⟩
  else
    match ch.queue with
    | v :: rest =>
      match next_send { ch with queue := rest } with
      | some (p, ch2) => ⟨.Ok v, false, false, { ch2 with queue := ch2.queue ++ [p.2] }⟩
      | none => ⟨.Ok v, false, false, { ch with queue := rest }⟩
    | [] =>
      match next_send ch with
      | some (p, ch1) => ⟨.Ok p.2, false, false, ch1⟩
      | none =>
        if expired then ⟨.Err .Timeout, false, false, ch⟩
        else if ch.send_count = 0 then ⟨.Err .SendClosed, false, false, ch⟩
        else
          let ch1 := push_recv sid ch
          if o.wait_timeout_ok then ⟨.Ok slot, true, false, ch1⟩
          else if o.sig_terminated then ⟨.Err .ReceiveClosed, true, false, ch1⟩
          else if o.still_queued then ⟨.Err .Timeout, true, true, ch1⟩
          else if o.wait_ok then ⟨.Ok slot, true, false, ch1⟩
          else ⟨.Err .ReceiveClosed, true, false, ch1⟩

/-- `Sender::send_option_timeout` (`src/lib.rs` 299-349), with the deadline
already computed.  The `none` result models the panic of `data.take().unwrap()`
on an empty option; otherwise the pair is the timed result together with the
final contents of the `&mut Option<T>` argument. -/
def send_option_timeout {T : Type} (sid : Nat) (o : ParkOracle)
    (data : Option T) (ch : ChannelInternal T) :
    Option (TimedRes T Unit × Option T) :=
  if ch.send_count = 0 then some (⟨.Err .Closed, false, false, ch⟩, data)
  else
    match next_recv ch with
    | some (_, ch1) =>
      match data with
      | none => none
      | some _ => some (⟨.Ok (), false, false, ch1⟩, none)
    | none =>
      if ch.queue.length < ch.capacity then
        match data with
        | none => none
        | some v => some (⟨.Ok (), false, false, { ch with queue := ch.queue ++ [v] }⟩, none)
      else if ch.recv_count = 0 then some (⟨.Err .ReceiveClosed, false, false, ch⟩, data)
      else
        match data with
        | none => none
        | some v =>
          let ch1 := push_send (sid, v) ch
          if o.wait_timeout_ok then some (⟨.Ok (), true, false, ch1⟩, none)
          else if o.sig_terminated then some (⟨.Err .SendClosed, true, false, ch1⟩, some v)
          else if o.still_queued then some (⟨.Err .Timeout, true, true, ch1⟩, some v)
          else if o.wait_ok then some (⟨.Ok (), true, false, ch1⟩, none)
          else some (⟨.Err .SendClosed, true, false, ch1⟩, some v)

/-- `close` (`src/lib.rs` 188-199): returns whether the channel was live,
the new state, and the identities of the signals terminated. -/
def close {T : Type} (ch : ChannelInternal T) :
    Bool × ChannelInternal T × List Nat :=
  if ch.recv_count = 0 ∧ ch.send_count = 0 then (false, ch, [])
  else
    let ch1 := { ch with recv_count := 0, send_count := 0 }
    let (ch2, ids) := terminate_signals ch1
    (true, { ch2 with send_wait := [], recv_wait := [] }, ids)

/-- `Clone for Sender` / `Sender::clone_async` / `AsyncSender::clone_sync`
(`src/lib.rs` 131-141, 377-385, 452-460): all three share the same body —
increment `send_count` only if it is already positive. -/
def clone_sender {T : Type} (ch : ChannelInternal T) : ChannelInternal T :=
  if 0 < ch.send_count then { ch with send_count := ch.send_count + 1 } else ch

/-- `Clone for Receiver` / `Receiver::clone_async` / `AsyncReceiver::clone_sync`
(`src/lib.rs` 736-746, 632-640, 695-703): increment `recv_count` only if it is
already positive. -/
def clone_receiver {T : Type} (ch : ChannelInternal T) : ChannelInternal T :=
  if 0 < ch.recv_count then { ch with recv_count := ch.recv_count + 1 } else ch

/-- `Drop for Sender` (`src/lib.rs` 106-116): decrement `send_count` if
positive; on reaching zero, terminate all parked signals. -/
def drop_sender {T : Type} (ch : ChannelInternal T) : ChannelInternal T × List Nat :=
  if 0 < ch.send_count then
    let ch1 := { ch with send_count := ch.send_count - 1 }
    if ch1.send_count = 0 then terminate_signals ch1 else (ch1, [])
  else (ch, [])

/-- `Drop for Receiver` (`src/lib.rs` 711-721): symmetric to `drop_sender`. -/
def drop_receiver {T : Type} (ch : ChannelInternal T) : ChannelInternal T × List Nat :=
  if 0 < ch.recv_count then
    let ch1 := { ch with recv_count := ch.recv_count - 1 }
    if ch1.recv_count = 0 then terminate_signals ch1 else (ch1, [])
  else (ch, [])

/-- `Instant::checked_add` (std): instants are `Nat`s bounded by `instantMax`;
the sum is representable exactly when it stays within the bound. -/
def checked_add (instantMax now dur : Nat) : Option Nat :=
  if now + dur ≤ instantMax then some (now + dur) else none

/-- `Sender::send_timeout` entry (`src/lib.rs` 250-251): the deadline is
computed by `Instant::now().checked_add(duration).unwrap()` before the channel
mutex is acquired; `none` models the panic of the `unwrap`. -/
def send_timeout_entry {T : Type} (instantMax now dur : Nat) (sid : Nat)
    (o : ParkOracle) (data : T) (ch : ChannelInternal T) :
    Option (TimedRes T Unit) :=
  match checked_add instantMax now dur with
  | none => none
  | some _ => some (send_timeout sid o data ch)

/-- `Receiver::recv_timeout` entry (`src/lib.rs` 547-548): the deadline is
computed first; `now2` is the value of `Instant::now()` at the pre-park
deadline check (line 565). -/
def recv_timeout_entry {T : Type} (instantMax now dur now2 : Nat) (slot : T)
    (sid : Nat) (o : ParkOracle) (ch : ChannelInternal T) :
    Option (TimedRes T T) :=
  match checked_add instantMax now dur with
  | none => none
  | some dl => some (recv_timeout (decide (dl < now2)) slot sid o ch)

/-- `Sender::send_option_timeout` entry (`src/lib.rs` 303-304): the deadline is
computed first; `none` covers the panic of that `unwrap` (and, further in, the
`data.take().unwrap()` on an empty option). -/
def send_option_timeout_entry {T : Type} (instantMax now dur : Nat) (sid : Nat)
    (o : ParkOracle) (data : Option T) (ch : ChannelInternal T) :
    Option (TimedRes T Unit × Option T) :=
  match checked_add instantMax now dur with
  | none => none
  | some _ => send_option_timeout sid o data ch

/-- Lock events of one operation: mutex acquire, mutex release, and a Signal
payload transfer (`Signal::send` = complete, `Signal::recv` = consume). -/
inductive LockEv where
  | acq
  | rel
  | transfer
deriving DecidableEq, Repr

/-- Whether some transfer event in the trace occurs while the mutex is held
(the second argument is the held flag at the start of the trace). -/
def heldDuringTransfer : List LockEv → Bool → Bool
  | [], _ => false
  | .acq :: rest, _ => heldDuringTransfer rest true
  | .rel :: rest, _ => heldDuringTransfer rest false
  | .transfer :: rest, h => h || heldDuringTransfer rest h

/-- Lock/transfer trace of `Sender::send` (`src/lib.rs` 211-247): in the
direct-handoff branch the guard is dropped (line 217) before `first.send(data)`
(line 219); every other branch releases the guard with no transfer (the park
branch transfers on the peer's side, not under this thread's guard). -/
def send_lock_trace {T : Type} (ch : ChannelInternal T) : List LockEv :=
  if ch.send_count = 0 then [.acq, .rel]
  else
    match ch.recv_wait with
    | _ :: _ => [.acq, .rel, .transfer]
    | [] => [.acq, .rel]

/-- Lock/transfer trace of `Sender::try_send` (`src/lib.rs` 355-373): same
shape as `send` — `drop(internal)` (line 361) precedes `first.send(data)`. -/
def try_send_lock_trace {T : Type} (ch : ChannelInternal T) : List LockEv :=
  if ch.send_count = 0 then [.acq, .rel]
  else
    match ch.recv_wait with
    | _ :: _ => [.acq, .rel, .transfer]
    | [] => [.acq, .rel]

/-- Lock/transfer trace of `Receiver::recv` (`src/lib.rs` 507-544): in the
buffer-pop branch with a parked sender, `internal.queue.push_back(p.recv())`
(line 516) consumes the sender's payload while the guard is held; in the
direct-consume branch `drop(internal)` (line 520) precedes `p.recv()`. -/
def recv_lock_trace {T : Type} (ch : ChannelInternal T) : List LockEv :=
  if ch.recv_count = 0 then [.acq, .rel]
  else
    match ch.queue, ch.send_wait with
    | _ :: _, _ :: _ => [.acq, .transfer, .rel]
    | _ :: _, [] => [.acq, .rel]
    | [], _ :: _ => [.acq, .rel, .transfer]
    | [], [] => [.acq, .rel]

/-- Lock/transfer trace of `Receiver::try_recv` (`src/lib.rs` 604-625): the
promotion branch (line 613) consumes under the guard, and the direct-handoff
branch (`return unsafe { Ok(Some(p.recv())) }`, line 618) has no
`drop(internal)`, so the guard is alive across `p.recv()` and released only on
return. -/
def try_recv_lock_trace {T : Type} (ch : ChannelInternal T) : List LockEv :=
  if ch.recv_count = 0 then [.acq, .rel]
  else
    match ch.queue, ch.send_wait with
    | _ :: _, _ :: _ => [.acq, .transfer, .rel]
    | _ :: _, [] => [.acq, .rel]
    | [], _ :: _ => [.acq, .transfer, .rel]
    | [], [] => [.acq, .rel]

/-- Lock/transfer trace of `Receiver::recv_timeout` (`src/lib.rs` 547-599): in
the buffer-pop branch with a parked sender, `internal.queue.push_back(p.recv())`
(line 557) consumes the sender's payload while the guard is held; in the
direct-consume branch `drop(internal)` (line 561) precedes `p.recv()`; the
pre-park deadline check, the closed checks and the park path release the guard
with no transfer by this thread. -/
def recv_timeout_lock_trace {T : Type} (ch : ChannelInternal T) : List LockEv :=
  if ch.recv_count = 0 then [.acq, .rel]
  else
    match ch.queue, ch.send_wait with
    | _ :: _, _ :: _ => [.acq, .transfer, .rel]
    | _ :: _, [] => [.acq, .rel]
    | [], _ :: _ => [.acq, .rel, .transfer]
    | [], [] => [.acq, .rel]

theorem send_option_timeout_isSome {T : Type} (sid : Nat) (o : ParkOracle)
    (v : T) (ch : ChannelInternal T) :
    (send_option_timeout sid o (some v) ch).isSome = true := by
  unfold send_option_timeout
  repeat' split
  all_goals simp_all

/-- C1: on a channel created with bounded(1), the sequence try_send(10),
try_send(20), recv(), try_send(20), recv() returns, in order, Ok(true),
Ok(false), Ok(10), Ok(true), Ok(20): the first try_send buffers, the second
reports would-block because the buffer is full and no receiver waits, each
recv drains in FIFO order, and the slot vacated by recv admits the retried
send. -/
theorem c1_bounded_one_scenario :
    try_send 10 (bounded Nat 1) = .Ok (true, ⟨[10], 1, [], [], 1, 1⟩) ∧
    try_send 20 (⟨[10], 1, [], [], 1, 1⟩ : ChannelInternal Nat) =
      .Ok (false, ⟨[10], 1, [], [], 1, 1⟩) ∧
    recv 0 (⟨[10], 1, [], [], 1, 1⟩ : ChannelInternal Nat) =
      .ok 10 ⟨[], 1, [], [], 1, 1⟩ ∧
    try_send 20 (⟨[], 1, [], [], 1, 1⟩ : ChannelInternal Nat) =
      .Ok (true, ⟨[20], 1, [], [], 1, 1⟩) ∧
    recv 0 (⟨[20], 1, [], [], 1, 1⟩ : ChannelInternal Nat) =
      .ok 20 ⟨[], 1, [], [], 1, 1⟩ := by
  decide

/-- C2: every receive operation (recv, recv_timeout, try_recv) that pops a
payload from a non-empty buffer, when the send-wait queue is non-empty, pops
the head sender Signal, consumes its payload, and pushes that payload onto the
tail of the buffer, admitting the parked sender into the vacated slot in FIFO
order relative to the buffered messages. -/
theorem c2_sender_promotion {T : Type} (sid i : Nat) (v p slot : T)
    (rest : List T) (ss : List (Nat × T)) (expired : Bool) (o : ParkOracle)
    (ch : ChannelInternal T) (hr : 0 < ch.recv_count)
    (hq : ch.queue = v :: rest) (hs : ch.send_wait = (i, p) :: ss) :
    recv sid ch = .ok v { ch with queue := rest ++ [p], send_wait := ss } ∧
    try_recv ch = .Ok (some v, { ch with queue := rest ++ [p], send_wait := ss }) ∧
    recv_timeout expired slot sid o ch =
      ⟨.Ok v, false, false, { ch with queue := rest ++ [p], send_wait := ss }⟩ := by
  obtain ⟨q, cap, sw, rw, sc, rc⟩ := ch
  dsimp only at hr hq hs ⊢
  subst hq hs
  simp [recv, try_recv, recv_timeout, next_send, Nat.pos_iff_ne_zero.mp hr]

theorem c2_sender_promotion_witness :
    recv 0 (⟨[1, 2], 1, [(7, 3)], [], 1, 1⟩ : ChannelInternal Nat) =
      .ok 1 ⟨[2, 3], 1, [], [], 1, 1⟩ ∧
    try_recv (⟨[1, 2], 1, [(7, 3)], [], 1, 1⟩ : ChannelInternal Nat) =
      .Ok (some 1, ⟨[2, 3], 1, [], [], 1, 1⟩) ∧
    recv_timeout false 0 0 ⟨false, false, false, false⟩
        (⟨[1, 2], 1, [(7, 3)], [], 1, 1⟩ : ChannelInternal Nat) =
      ⟨.Ok 1, false, false, ⟨[2, 3], 1, [], [], 1, 1⟩⟩ := by
  exact c2_sender_promotion 0 7 1 3 0 [2] [] false ⟨false, false, false, false⟩
    ⟨[1, 2], 1, [(7, 3)], [], 1, 1⟩ (by decide) rfl rfl

/-- C3 counterexample: in the state with capacity 0, empty buffer and wait
queues, send_count 1 and recv_count 0, the handoff and buffer steps both fail
and the claim demands Ok(false), but try_send performs the opposite-side
closed check (step 4) and returns Err(ReceiveClosed); symmetrically try_recv
with recv_count 1, send_count 0 returns Err(SendClosed) instead of Ok(None). -/
theorem c3_try_ops_cex :
    try_send 5 (⟨[], 0, [], [], 1, 0⟩ : ChannelInternal Nat) = .Err .ReceiveClosed ∧
    try_send 5 (⟨[], 0, [], [], 1, 0⟩ : ChannelInternal Nat) ≠
      .Ok (false, ⟨[], 0, [], [], 1, 0⟩) ∧
    try_recv (⟨[], 0, [], [], 0, 1⟩ : ChannelInternal Nat) = .Err .SendClosed ∧
    try_recv (⟨[], 0, [], [], 0, 1⟩ : ChannelInternal Nat) ≠
      .Ok (none, ⟨[], 0, [], [], 0, 1⟩) := by
  decide

/-- C3 (amended): try_send and try_recv never park — in every channel state in
which the direct-handoff and buffer steps both fail, they return Ok(false)
(resp. Ok(None)) with the state unchanged provided the opposite side is still
open; when the opposite side is closed they return Err(ReceiveClosed)
(resp. Err(SendClosed)) instead. -/
theorem c3_try_ops_no_park {T : Type} (data : T) (ch ch' : ChannelInternal T) :
    (0 < ch.send_count → ch.recv_wait = [] → ch.capacity ≤ ch.queue.length →
        try_send data ch =
          if ch.recv_count = 0 then .Err .ReceiveClosed else .Ok (false, ch)) ∧
    (0 < ch'.recv_count → ch'.queue = [] → ch'.send_wait = [] →
        try_recv ch' =
          if ch'.send_count = 0 then .Err .SendClosed else .Ok (none, ch')) := by
  constructor
  · intro h1 h2 h3
    obtain ⟨q, cap, sw, rw, sc, rc⟩ := ch
    dsimp only at h1 h2 h3 ⊢
    subst h2
    simp [try_send, next_recv, Nat.pos_iff_ne_zero.mp h1, Nat.not_lt.mpr h3]
  · intro h1 h2 h3
    obtain ⟨q, cap, sw, rw, sc, rc⟩ := ch'
    dsimp only at h1 h2 h3 ⊢
    subst h2 h3
    simp [try_recv, next_send, Nat.pos_iff_ne_zero.mp h1]

theorem c3_try_ops_no_park_witness :
    try_send 9 (⟨[4], 1, [], [], 1, 1⟩ : ChannelInternal Nat) =
      .Ok (false, ⟨[4], 1, [], [], 1, 1⟩) ∧
    try_recv (⟨[], 1, [], [], 1, 1⟩ : ChannelInternal Nat) =
      .Ok (none, ⟨[], 1, [], [], 1, 1⟩) := by
  have h := c3_try_ops_no_park 9 (⟨[4], 1, [], [], 1, 1⟩ : ChannelInternal Nat)
    (⟨[], 1, [], [], 1, 1⟩ : ChannelInternal Nat)
  exact ⟨by simpa using h.1 (by decide) rfl (by decide),
         by simpa using h.2 (by decide) rfl rfl⟩

/-- C4 counterexample: recv_timeout with duration 0 on an open rendezvous
channel (empty buffer, no parked sender) finds the deadline already passed at
the pre-park check and returns Err(Timeout) without ever pushing — let alone
retracting — a Signal (parked = false, cancelled = false), so a Timeout is
returned on a path that did not remove the caller's Signal from its wait
queue. -/
theorem c4_recv_timeout_early_cex :
    recv_timeout_entry 1000 0 0 1 0 0 ⟨false, false, false, false⟩
        (⟨[], 0, [], [], 1, 1⟩ : ChannelInternal Nat) =
      some ⟨.Err .Timeout, false, false, ⟨[], 0, [], [], 1, 1⟩⟩ := by
  decide

/-- C4 (amended): send_timeout and send_option_timeout return Timeout only
when the owner parked (its Signal was pushed onto the send wait queue) and the
subsequent cancel under the mutex succeeded; recv_timeout does the same,
except that it additionally returns Timeout without parking when, on entry,
the buffer is empty, no sender Signal is parked, and the deadline has already
passed. -/
theorem c4_timeout_requires_cancel {T : Type} (sid : Nat) (o : ParkOracle)
    (data slot : T) (dopt : Option T) (expired : Bool)
    (ch : ChannelInternal T) :
    ((send_timeout sid o data ch).res = .Err .Timeout →
        (send_timeout sid o data ch).parked = true ∧
        (send_timeout sid o data ch).cancelled = true) ∧
    (∀ r d, send_option_timeout sid o dopt ch = some (r, d) →
        r.res = .Err .Timeout → r.parked = true ∧ r.cancelled = true) ∧
    ((recv_timeout expired slot sid o ch).res = .Err .Timeout →
        ((recv_timeout expired slot sid o ch).parked = true ∧
         (recv_timeout expired slot sid o ch).cancelled = true) ∨
        (expired = true ∧ ch.queue = [] ∧ ch.send_wait = [] ∧
         (recv_timeout expired slot sid o ch).parked = false)) := by
  refine ⟨?_, ?_, ?_⟩
  · unfold send_timeout
    repeat' split
    all_goals simp_all
  · intro r d h
    unfold send_option_timeout at h
    repeat' split at h
    all_goals simp_all
    all_goals (obtain ⟨rfl, rfl⟩ := h; simp)
  · unfold recv_timeout next_send
    repeat' split
    all_goals (try simp_all)
    all_goals (cases hsw : ch.send_wait <;> simp_all)

theorem c4_timeout_requires_cancel_witness :
    (send_timeout 0 ⟨false, false, true, false⟩ 9
        (⟨[5], 1, [], [], 1, 1⟩ : ChannelInternal Nat)).parked = true ∧
    (send_timeout 0 ⟨false, false, true, false⟩ 9
        (⟨[5], 1, [], [], 1, 1⟩ : ChannelInternal Nat)).cancelled = true := by
  exact (c4_timeout_requires_cancel 0 ⟨false, false, true, false⟩ 9 0 none false
    (⟨[5], 1, [], [], 1, 1⟩ : ChannelInternal Nat)).1 (by decide)

/-- C5: for every send_option_timeout call whose option initially contains
Some(payload), a result of Err(Timeout) or Err(SendClosed) leaves the payload
recovered in the option, and a result of Ok(()) leaves the option None. -/
theorem c5_option_payload_recovery {T : Type} (sid : Nat) (o : ParkOracle)
    (v : T) (ch : ChannelInternal T) (r : TimedRes T Unit) (d : Option T)
    (h : send_option_timeout sid o (some v) ch = some (r, d)) :
    ((r.res = .Err .Timeout ∨ r.res = .Err .SendClosed) → d = some v) ∧
    (r.res = .Ok () → d = none) := by
  unfold send_option_timeout at h
  repeat' split at h
  all_goals simp_all
  all_goals (obtain ⟨rfl, rfl⟩ := h; simp)

theorem c5_option_payload_recovery_witness :
    send_option_timeout 0 ⟨false, false, true, false⟩ (some 9)
        (⟨[5], 1, [], [], 1, 1⟩ : ChannelInternal Nat) =
      some (⟨.Err .Timeout, true, true, ⟨[5], 1, [(0, 9)], [], 1, 1⟩⟩, some 9) ∧
    (some 9 : Option Nat) = some 9 := by
  refine ⟨by decide, ?_⟩
  exact (c5_option_payload_recovery 0 ⟨false, false, true, false⟩ 9
    (⟨[5], 1, [], [], 1, 1⟩ : ChannelInternal Nat)
    ⟨.Err .Timeout, true, true, ⟨[5], 1, [(0, 9)], [], 1, 1⟩⟩ (some 9)
    (by decide)).1 (Or.inl rfl)

/-- C6: close() returns true exactly when the channel was previously live
(send_count > 0 or recv_count > 0); when it returns true it zeroes both
counts, terminates every Signal in both wait queues and clears both queues;
when it returns false the state is unchanged; a second close on the same
channel always returns false. -/
theorem c6_close_spec {T : Type} (ch : ChannelInternal T) :
    ((close ch).1 = true ↔ 0 < ch.send_count ∨ 0 < ch.recv_count) ∧
    ((close ch).1 = true →
        (close ch).2.1 = { ch with send_count := 0, recv_count := 0,
                                   send_wait := [], recv_wait := [] } ∧
        (close ch).2.2 = ch.send_wait.map Prod.fst ++ ch.recv_wait) ∧
    ((close ch).1 = false → (close ch).2.1 = ch ∧ (close ch).2.2 = []) ∧
    (close (close ch).2.1).1 = false := by
  by_cases h : ch.recv_count = 0 ∧ ch.send_count = 0 <;>
    (simp [close, terminate_signals, h]; try omega)

theorem c6_close_spec_witness :
    (close (⟨[4], 2, [(1, 5)], [], 1, 1⟩ : ChannelInternal Nat)).2.1 =
      ⟨[4], 2, [], [], 0, 0⟩ ∧
    (close (⟨[4], 2, [(1, 5)], [], 1, 1⟩ : ChannelInternal Nat)).2.2 = [1] := by
  exact (c6_close_spec (⟨[4], 2, [(1, 5)], [], 1, 1⟩ : ChannelInternal Nat)).2.1
    (by decide)

/-- C7: cloning an endpoint (clone, clone_async, clone_sync — all sharing the
same body) increments the endpoint's own-side count only if it is already
positive; cloning a handle whose side count is zero leaves the state
untouched, and "once a side count reaches zero it stays zero" is preserved by
every clone and drop operation (neither op touches the opposite count). -/
theorem c7_clone_drop_counts {T : Type} (ch : ChannelInternal T) :
    (0 < ch.send_count → (clone_sender ch).send_count = ch.send_count + 1) ∧
    (ch.send_count = 0 → clone_sender ch = ch) ∧
    (0 < ch.recv_count → (clone_receiver ch).recv_count = ch.recv_count + 1) ∧
    (ch.recv_count = 0 → clone_receiver ch = ch) ∧
    (clone_sender ch).recv_count = ch.recv_count ∧
    (clone_receiver ch).send_count = ch.send_count ∧
    (drop_sender ch).1.recv_count = ch.recv_count ∧
    (drop_receiver ch).1.send_count = ch.send_count ∧
    (ch.send_count = 0 → (drop_sender ch).1.send_count = 0) ∧
    (ch.recv_count = 0 → (drop_receiver ch).1.recv_count = 0) := by
  obtain ⟨q, cap, sw, rw, sc, rc⟩ := ch
  refine ⟨fun h => ?_, fun h => ?_, fun h => ?_, fun h => ?_, ?_, ?_, ?_, ?_,
    fun h => ?_, fun h => ?_⟩
  all_goals simp only [clone_sender, clone_receiver, drop_sender, drop_receiver,
    terminate_signals]
  all_goals repeat' split
  all_goals simp_all

theorem c7_clone_drop_counts_witness :
    (clone_sender (⟨[], 3, [], [], 2, 1⟩ : ChannelInternal Nat)).send_count = 3 ∧
    clone_sender (⟨[], 3, [], [], 0, 1⟩ : ChannelInternal Nat) = ⟨[], 3, [], [], 0, 1⟩ := by
  exact ⟨(c7_clone_drop_counts (⟨[], 3, [], [], 2, 1⟩ : ChannelInternal Nat)).1 (by decide),
         (c7_clone_drop_counts (⟨[], 3, [], [], 0, 1⟩ : ChannelInternal Nat)).2.1 rfl⟩

/-- C8: after the producer side closes (send_count = 0) while receivers remain
live (recv_count > 0), buffered payloads are retained: recv and try_recv still
return the buffer head (FIFO, the remaining state keeping the tail), and they
fail with SendClosed exactly when the buffer is empty and no sender Signal is
parked. -/
theorem c8_producer_closed_drain {T : Type} (sid : Nat) (ch : ChannelInternal T)
    (h0 : ch.send_count = 0) (h1 : 0 < ch.recv_count) :
    (∀ v rest, ch.queue = v :: rest → ch.send_wait = [] →
        recv sid ch = .ok v { ch with queue := rest } ∧
        try_recv ch = .Ok (some v, { ch with queue := rest })) ∧
    (recv sid ch = .err .SendClosed ↔ ch.queue = [] ∧ ch.send_wait = []) ∧
    (try_recv ch = .Err .SendClosed ↔ ch.queue = [] ∧ ch.send_wait = []) := by
  obtain ⟨q, cap, sw, rw, sc, rc⟩ := ch
  dsimp only at h0 h1 ⊢
  subst h0
  cases q <;> cases sw <;>
    simp [recv, try_recv, next_send, Nat.pos_iff_ne_zero.mp h1]

theorem c8_producer_closed_drain_witness :
    recv 0 (⟨[4, 6], 2, [], [], 0, 1⟩ : ChannelInternal Nat) =
      .ok 4 ⟨[6], 2, [], [], 0, 1⟩ ∧
    (recv 0 (⟨[], 2, [], [], 0, 1⟩ : ChannelInternal Nat) = .err .SendClosed) := by
  refine ⟨((c8_producer_closed_drain 0 (⟨[4, 6], 2, [], [], 0, 1⟩ : ChannelInternal Nat)
      rfl (by decide)).1 4 [6] rfl rfl).1, ?_⟩
  exact (c8_producer_closed_drain 0 (⟨[], 2, [], [], 0, 1⟩ : ChannelInternal Nat)
      rfl (by decide)).2.1.mpr ⟨rfl, rfl⟩

/-- C9 counterexample: in the state with an empty buffer, one parked sender
and both sides open, the direct-handoff branch of try_recv performs the
Signal consume while the channel mutex is still held (the source has no
`drop(internal)` before `p.recv()` in that branch); and in the state with a
buffered payload and one parked sender, the sender-promotion branch of each of
recv, try_recv and recv_timeout performs the consume while the guard is held,
so the internal guard is not released before the transfer on those paths. -/
theorem c9_lock_held_cex :
    heldDuringTransfer
        (try_recv_lock_trace (⟨[], 0, [(0, 7)], [], 1, 1⟩ : ChannelInternal Nat))
        false = true ∧
    heldDuringTransfer
        (recv_lock_trace (⟨[3], 1, [(0, 7)], [], 1, 1⟩ : ChannelInternal Nat))
        false = true ∧
    heldDuringTransfer
        (try_recv_lock_trace (⟨[3], 1, [(0, 7)], [], 1, 1⟩ : ChannelInternal Nat))
        false = true ∧
    heldDuringTransfer
        (recv_timeout_lock_trace (⟨[3], 1, [(0, 7)], [], 1, 1⟩ : ChannelInternal Nat))
        false = true := by
  decide

/-- C9 (amended): the channel mutex is released before the Signal transfer in
the direct-handoff branches of send, try_send, blocking recv and recv_timeout;
but it is held at the moment of the transfer in the sender-promotion branch of
every buffer drain (recv, try_recv and recv_timeout) and in the direct-handoff
branch of try_recv. -/
theorem c9_lock_discipline {T : Type} (ch : ChannelInternal T) :
    heldDuringTransfer (send_lock_trace ch) false = false ∧
    heldDuringTransfer (try_send_lock_trace ch) false = false ∧
    (ch.queue = [] →
        heldDuringTransfer (recv_lock_trace ch) false = false ∧
        heldDuringTransfer (recv_timeout_lock_trace ch) false = false) ∧
    (0 < ch.recv_count → ch.queue ≠ [] → ch.send_wait ≠ [] →
        heldDuringTransfer (recv_lock_trace ch) false = true ∧
        heldDuringTransfer (try_recv_lock_trace ch) false = true ∧
        heldDuringTransfer (recv_timeout_lock_trace ch) false = true) ∧
    (0 < ch.recv_count → ch.send_wait ≠ [] →
        heldDuringTransfer (try_recv_lock_trace ch) false = true) := by
  obtain ⟨q, cap, sw, rw, sc, rc⟩ := ch
  dsimp only
  unfold send_lock_trace try_send_lock_trace recv_lock_trace try_recv_lock_trace
    recv_timeout_lock_trace
  cases q <;> cases sw <;> cases rw <;>
    by_cases hsc : sc = 0 <;> by_cases hrc : rc = 0 <;>
    simp_all [heldDuringTransfer, Nat.pos_iff_ne_zero]

theorem c9_lock_discipline_witness :
    heldDuringTransfer
        (recv_lock_trace (⟨[], 0, [(0, 7)], [], 1, 1⟩ : ChannelInternal Nat))
        false = false ∧
    heldDuringTransfer
        (recv_timeout_lock_trace (⟨[], 0, [(0, 7)], [], 1, 1⟩ : ChannelInternal Nat))
        false = false ∧
    heldDuringTransfer
        (recv_timeout_lock_trace (⟨[3], 1, [(0, 7)], [], 1, 1⟩ : ChannelInternal Nat))
        false = true ∧
    heldDuringTransfer
        (try_recv_lock_trace (⟨[], 0, [(0, 7)], [], 1, 1⟩ : ChannelInternal Nat))
        false = true := by
  have h := c9_lock_discipline (⟨[], 0, [(0, 7)], [], 1, 1⟩ : ChannelInternal Nat)
  have h2 := c9_lock_discipline (⟨[3], 1, [(0, 7)], [], 1, 1⟩ : ChannelInternal Nat)
  exact ⟨(h.2.2.1 rfl).1, (h.2.2.1 rfl).2,
         (h2.2.2.2.1 (by decide) (by decide) (by decide)).2.2,
         h.2.2.2.2 (by decide) (by decide)⟩

/-- C10: every timed operation computes its deadline as
`Instant::now().checked_add(duration).unwrap()` before touching the channel:
when `now + duration` is not representable as an Instant the operation panics
(for every channel state, with no error variant returned), and when the sum is
representable the unwrap cannot panic. -/
theorem c10_deadline_unwrap {T : Type} (instantMax now dur now2 sid : Nat)
    (o : ParkOracle) (data slot v : T) (ch : ChannelInternal T) :
    (instantMax < now + dur →
        send_timeout_entry instantMax now dur sid o data ch = none ∧
        recv_timeout_entry instantMax now dur now2 slot sid o ch = none ∧
        send_option_timeout_entry instantMax now dur sid o (some v) ch = none) ∧
    (now + dur ≤ instantMax →
        (send_timeout_entry instantMax now dur sid o data ch).isSome = true ∧
        (recv_timeout_entry instantMax now dur now2 slot sid o ch).isSome = true ∧
        (send_option_timeout_entry instantMax now dur sid o (some v) ch).isSome = true) := by
  constructor
  · intro h
    have hc : checked_add instantMax now dur = none := by
      simp [checked_add, Nat.not_le.mpr h]
    simp [send_timeout_entry, recv_timeout_entry, send_option_timeout_entry, hc]
  · intro h
    have hc : checked_add instantMax now dur = some (now + dur) := by
      simp [checked_add, h]
    simp [send_timeout_entry, recv_timeout_entry, send_option_timeout_entry, hc,
      send_option_timeout_isSome]

theorem c10_deadline_unwrap_witness :
    send_timeout_entry 10 5 6 0 ⟨false, false, false, false⟩ 1
        (bounded Nat 1) = none ∧
    (send_timeout_entry 10 5 5 0 ⟨false, false, false, false⟩ 1
        (bounded Nat 1)).isSome = true := by
  refine ⟨((c10_deadline_unwrap 10 5 6 0 0 ⟨false, false, false, false⟩ 1 1 1
      (bounded Nat 1)).1 (by decide)).1, ?_⟩
  exact ((c10_deadline_unwrap 10 5 5 0 0 ⟨false, false, false, false⟩ 1 1 1
      (bounded Nat 1)).2 (by decide)).1
